import Mathlib

/-!
Shallow embedding of the HomeAssistantLink lighting resolution pipeline
(GameState.cpp, LampMapping.cpp, LightSmoother.cpp, plugin.cpp).

Modelling conventions:
* C++ `float` arithmetic is modelled over `ℚ`; float literals such as
  `0.2f`, `0.05f`, `0.95f`, `0.01f` are taken at their decimal value.
* `static_cast<int>` on a float truncates toward zero; this is `truncQ`.
* `std::sqrt` is transcendental on most inputs, so it is threaded through
  the geometry code as an explicit function parameter `sqrtFn : ℚ → ℚ`
  (theorems that depend on its value take a hypothesis pinning it down at
  the relevant input).
* `std::pow(x, 0.4f)` in the compositor is likewise threaded as a function
  parameter `shape : ℚ → ℚ`; `std::pow(x, 2.0f)` in the mapper is exact
  squaring and is modelled as `x * x`.
* `std::cos(-yaw)` / `std::sin(-yaw)` in `RotateVectorByYaw` are modelled
  as a pair of rational parameters `cosA sinA` (theorems needing the
  trigonometric identity take `cosA ^ 2 + sinA ^ 2 = 1` as a hypothesis).
* Fields that C++ leaves indeterminate (default-initialized `int` members
  of stack-local `LightState` values) are threaded as explicit parameters
  named `uninit*`.
-/

/-- `static_cast<int>` of a float value: truncation toward zero. -/
def truncQ (q : ℚ) : ℤ := if 0 ≤ q then ⌊q⌋ else ⌈q⌉

/-- `std::clamp` on rationals. -/
def clampQ (v lo hi : ℚ) : ℚ := if v < lo then lo else if hi < v then hi else v

/-- `std::clamp` on integers. -/
def clampZ (v lo hi : ℤ) : ℤ := if v < lo then lo else if hi < v then hi else v

/-- `fmod`-style truncated remainder on rationals: `x - trunc(x / y) * y`. -/
def fmodQ (x y : ℚ) : ℚ := x - (truncQ (x / y) : ℚ) * y

/-- `Vec3` from ConfigLoader.h, over exact rationals. -/
structure Vec3 where
  x : ℚ
  y : ℚ
  z : ℚ
deriving DecidableEq, Repr

namespace Vec3

/-- `x*x + y*y + z*z`, the argument of `std::sqrt` in `Vec3::length`. -/
def sqLen (v : Vec3) : ℚ := v.x * v.x + v.y * v.y + v.z * v.z

/-- `Vec3::length`, with `std::sqrt` as an explicit parameter. -/
def lengthF (sqrtFn : ℚ → ℚ) (v : Vec3) : ℚ := sqrtFn (sqLen v)

/-- `Vec3::dot`. -/
def dot (a b : Vec3) : ℚ := a.x * b.x + a.y * b.y + a.z * b.z

/-- `Vec3::normalized`, with `std::sqrt` as an explicit parameter. -/
def normalizedF (sqrtFn : ℚ → ℚ) (v : Vec3) : Vec3 :=
  let l := lengthF sqrtFn v
  if 0 < l then ⟨v.x / l, v.y / l, v.z / l⟩ else ⟨0, 0, 0⟩

end Vec3

/-- `FlickerConfig` from ConfigLoader.h. -/
structure FlickerConfig where
  r : ℤ := 80
  g : ℤ := 50
  b : ℤ := 20
  brightness : ℤ := 25
deriving DecidableEq, Repr

/-- `LightState` from ConfigLoader.h.  `rgb_color` is the `std::array<int,3>`
written as an explicit triple. -/
structure LightState where
  entity_id : String
  rgb_color : ℤ × ℤ × ℤ
  brightness_pct : ℤ
  effect : Option String
  scene : Option String
  inherit : Bool
  flicker : Option FlickerConfig
deriving DecidableEq, Repr

instance : Inhabited LightState :=
  ⟨⟨"", (0, 0, 0), 0, none, none, false, none⟩⟩

/-- `ScenarioTrigger` from ConfigLoader.h (only the fields the evaluated
trigger kinds read: `type`, `min_hour`, `max_hour`; the remaining optional
string fields are never inspected by the modelled code). -/
structure ScenarioTrigger where
  type : String
  min_hour : Option ℤ := none
  max_hour : Option ℤ := none
deriving DecidableEq, Repr

/-- `Scenario` from ConfigLoader.h. -/
structure Scenario where
  name : String
  priority : ℤ
  trigger : ScenarioTrigger
  outcome : List LightState
deriving DecidableEq, Repr

/-- `RealLamp` from ConfigLoader.h. -/
structure RealLamp where
  entity_id : String
  position : Vec3
deriving DecidableEq, Repr

instance : Inhabited RealLamp := ⟨⟨"", ⟨0, 0, 0⟩⟩⟩

/-- `DayNightKeyframe` from ConfigLoader.h. -/
structure DayNightKeyframe where
  hour : ℤ
  rgb_color : ℤ × ℤ × ℤ
  brightness_pct : ℤ
deriving DecidableEq, Repr

instance : Inhabited DayNightKeyframe := ⟨⟨0, (0, 0, 0), 0⟩⟩

/-- `InGameLight` from LampMapping.h. -/
structure InGameLight where
  skyrim_pos : Vec3
  type : String
  color_r : ℤ
  color_g : ℤ
  color_b : ℤ
  intensity : ℚ
deriving DecidableEq, Repr

/-- `RotateVectorByYaw` from LampMapping.cpp.  The C++ computes
`cosA = cos(-yawRadians)` and `sinA = sin(-yawRadians)`; those two values
are taken here as the parameters `cosA`, `sinA`. -/
def RotateVectorByYaw (cosA sinA : ℚ) (vec : Vec3) : Vec3 :=
  ⟨vec.x * cosA - vec.y * sinA, vec.x * sinA + vec.y * cosA, vec.z⟩

/-- Accumulator of the inner loop of `MapInGameLightsToRealLamps`:
`(sumWeight, sumR, sumG, sumB, sumBrightness)`. -/
abbrev MapAcc : Type := ℚ × ℚ × ℚ × ℚ × ℚ

/-- One iteration of the inner loop of `MapInGameLightsToRealLamps`
(LampMapping.cpp lines 34–55). -/
def mapAccStep (sqrtFn : ℚ → ℚ) (cosA sinA maxDistance : ℚ) (lampDir : Vec3)
    (acc : MapAcc) (gameLight : InGameLight) : MapAcc :=
  let relVec := RotateVectorByYaw cosA sinA gameLight.skyrim_pos
  let dist := Vec3.lengthF sqrtFn relVec
  if maxDistance < dist then acc
  else
    let lightDir := Vec3.normalizedF sqrtFn relVec
    let dirRaw := max 0 (lampDir.dot lightDir)
    let dirAlignment := dirRaw * dirRaw  -- std::pow(dirRaw, 2.0f), DIRECTION_SHARPNESS = 2.0
    let distanceFade := 1 - clampQ (dist / maxDistance) 0 1
    let weight := dirAlignment * distanceFade * gameLight.intensity
    (acc.1 + weight,
     acc.2.1 + weight * (gameLight.color_r : ℚ),
     acc.2.2.1 + weight * (gameLight.color_g : ℚ),
     acc.2.2.2.1 + weight * (gameLight.color_b : ℚ),
     acc.2.2.2.2 + weight * 100)

/-- The per-lamp body of `MapInGameLightsToRealLamps` (LampMapping.cpp
lines 28–77).  `uninitRgb` / `uninitBright` model the indeterminate values
of the default-initialized `rgb_color` / `brightness_pct` members of the
stack-local `LightState ls;` taken in the no-contribution branch. -/
def mapLampState (sqrtFn : ℚ → ℚ) (uninitRgb : ℤ × ℤ × ℤ) (uninitBright : ℤ)
    (gameLights : List InGameLight) (cosA sinA maxDistance : ℚ)
    (lamp : RealLamp) : LightState :=
  let lampDir := Vec3.normalizedF sqrtFn lamp.position
  let acc := gameLights.foldl (mapAccStep sqrtFn cosA sinA maxDistance lampDir) (0, 0, 0, 0, 0)
  if 1 / 100 < acc.1 then
    { entity_id := lamp.entity_id
      rgb_color := (truncQ (acc.2.1 / acc.1), truncQ (acc.2.2.1 / acc.1),
                    truncQ (acc.2.2.2.1 / acc.1))
      brightness_pct := truncQ (clampQ (acc.2.2.2.2 / acc.1) 10 100)
      effect := some "flicker"
      scene := none
      inherit := false
      flicker := some ⟨60, 40, 20, 20⟩ }
  else
    { entity_id := lamp.entity_id
      rgb_color := uninitRgb
      brightness_pct := uninitBright
      effect := none
      scene := none
      inherit := true
      flicker := none }

/-- `MapInGameLightsToRealLamps` from LampMapping.cpp. -/
def MapInGameLightsToRealLamps (sqrtFn : ℚ → ℚ) (uninitRgb : ℤ × ℤ × ℤ) (uninitBright : ℤ)
    (realLamps : List RealLamp) (gameLights : List InGameLight)
    (cosA sinA maxDistance : ℚ) : List LightState :=
  realLamps.map (mapLampState sqrtFn uninitRgb uninitBright gameLights cosA sinA maxDistance)

/-- `SmoothLampState` from LightSmoother.h. -/
structure SmoothLampState where
  rgb_color : ℤ × ℤ × ℤ
  brightness_pct : ℤ
  effect : String
  inherit : Bool
deriving DecidableEq, Repr

/-- The value a fresh `previousStates[id]` entry holds:
`std::unordered_map::operator[]` value-initializes the aggregate, zeroing
every member. -/
def SmoothLampState.fresh : SmoothLampState := ⟨(0, 0, 0), 0, "", false⟩

/-- The smoother's `previousStates` map, modelled as an association list
(newest binding first). -/
abbrev SmootherMemory : Type := List (String × SmoothLampState)

/-- `lerp` from LightSmoother.cpp: `static_cast<int>(a + (b - a) * t)`. -/
def lerp (a b : ℤ) (t : ℚ) : ℤ := truncQ ((a : ℚ) + ((b : ℚ) - (a : ℚ)) * t)

/-- The per-lamp body of `LightSmoother::SmoothStates` (LightSmoother.cpp
lines 11–33): returns the updated stored entry and the emitted state. -/
def smoothOne (mem : SmootherMemory) (state : LightState) (smoothingFactor : ℚ) :
    SmoothLampState × LightState :=
  let prev := (mem.lookup state.entity_id).getD SmoothLampState.fresh
  let stored :=
    if prev.effect = "" ∨ state.inherit then
      { rgb_color := state.rgb_color
        brightness_pct := state.brightness_pct
        effect := state.effect.getD ""
        inherit := state.inherit : SmoothLampState }
    else
      { rgb_color := (lerp prev.rgb_color.1 state.rgb_color.1 smoothingFactor,
                      lerp prev.rgb_color.2.1 state.rgb_color.2.1 smoothingFactor,
                      lerp prev.rgb_color.2.2 state.rgb_color.2.2 smoothingFactor)
        brightness_pct := lerp prev.brightness_pct state.brightness_pct smoothingFactor
        effect := state.effect.getD prev.effect
        inherit := state.inherit : SmoothLampState }
  (stored, { state with rgb_color := stored.rgb_color, brightness_pct := stored.brightness_pct })

namespace LightSmoother

/-- `LightSmoother::SmoothStates` (LightSmoother.cpp): folds over the
incoming states, updating `previousStates` and collecting the emitted
states in order. -/
def SmoothStates (mem : SmootherMemory) (newStates : List LightState)
    (smoothingFactor : ℚ) : SmootherMemory × List LightState :=
  match newStates with
  | [] => (mem, [])
  | state :: rest =>
      let (stored, smoothed) := smoothOne mem state smoothingFactor
      let (memFinal, restOut) := SmoothStates ((state.entity_id, stored) :: mem) rest smoothingFactor
      (memFinal, smoothed :: restOut)

end LightSmoother

/-- Trigger evaluation of `ExportGameData` in GameState.cpp (lines 180–191):
only the `"player_in_combat"` and `"torch_equipped"` kinds are recognized. -/
def triggerMetGS (inCombat torchEquipped : Bool) (t : ScenarioTrigger) : Bool :=
  if t.type = "player_in_combat" then inCombat
  else if t.type = "torch_equipped" then torchEquipped
  else false

/-- One iteration of the scenario-selection loop of `ExportGameData`
(GameState.cpp lines 180–191), carrying `(activeScenario, highestPriority)`. -/
def resolveStep (inCombat torchEquipped : Bool) (acc : Option Scenario × ℤ)
    (scenario : Scenario) : Option Scenario × ℤ :=
  if triggerMetGS inCombat torchEquipped scenario.trigger ∧ acc.2 < scenario.priority then
    (some scenario, scenario.priority)
  else acc

/-- The Scenario Resolver of `ExportGameData` (GameState.cpp lines 177–194):
single pass, `highestPriority` initialized to `-1`. -/
def resolveScenario (inCombat torchEquipped : Bool) (scenarios : List Scenario) :
    Option Scenario :=
  (scenarios.foldl (resolveStep inCombat torchEquipped) (none, -1)).1

/-- The selection rule in the spec's words (§4.3 / claim C1): among the
scenarios whose trigger evaluates true, keep the one with the strictly
greatest priority seen so far (ties keep the earliest found); no trigger
matching → no winner.  Used only to compare against `resolveScenario`. -/
def resolveScenarioSpec (inCombat torchEquipped : Bool) (scenarios : List Scenario) :
    Option Scenario :=
  (scenarios.filter fun sc => triggerMetGS inCombat torchEquipped sc.trigger).foldl
    (fun acc sc =>
      match acc with
      | none => some sc
      | some best => if best.priority < sc.priority then some sc else some best)
    none

/-- Segment membership test of `GetAmbientStateForHour` (GameState.cpp
lines 111–115). -/
def inSegmentB (hour hourA hourB : ℚ) : Bool :=
  if hourA < hourB then decide (hourA ≤ hour ∧ hour < hourB)
  else decide (hourA ≤ hour ∨ hour < hourB)

/-- The keyframe-segment search loop of `GetAmbientStateForHour`
(GameState.cpp lines 107–121): first index `i ≥ start` whose circular
segment `[hour_i, hour_{(i+1) mod n})` contains `hour`. -/
def segSearch (kfs : List DayNightKeyframe) (hour : ℚ) (start : ℕ) : Option ℕ :=
  if h : start < kfs.length then
    if inSegmentB hour ((kfs.getD start default).hour : ℚ)
        ((kfs.getD ((start + 1) % kfs.length) default).hour : ℚ) then some start
    else segSearch kfs hour (start + 1)
  else none
termination_by kfs.length - start

/-- `GetAmbientStateForHour` from GameState.cpp (lines 100–141). -/
def GetAmbientStateForHour (kfs : List DayNightKeyframe) (gameHour : ℚ)
    (entity_id : String) : LightState :=
  if kfs.length < 2 then
    ⟨entity_id, (128, 128, 128), 50, none, none, false, none⟩
  else
    let hour0 := fmodQ gameHour 24
    let hour := if hour0 < 0 then hour0 + 24 else hour0
    let pair :=
      match segSearch kfs hour 0 with
      | some i => (kfs.getD i default, kfs.getD ((i + 1) % kfs.length) default)
      | none => (kfs.getD 0 default, kfs.getD 1 default)
    let kfA := pair.1
    let kfB := pair.2
    let hourA : ℚ := (kfA.hour : ℚ)
    let hourB : ℚ := (kfB.hour : ℚ)
    let t : ℚ :=
      if hourA = hourB then 0
      else if hourA < hourB then (hour - hourA) / (hourB - hourA)
      else
        let len := (24 - hourA) + hourB
        if hourA ≤ hour then (hour - hourA) / len else (hour + 24 - hourA) / len
    { entity_id := entity_id
      rgb_color := (truncQ ((1 - t) * (kfA.rgb_color.1 : ℚ) + t * (kfB.rgb_color.1 : ℚ)),
                    truncQ ((1 - t) * (kfA.rgb_color.2.1 : ℚ) + t * (kfB.rgb_color.2.1 : ℚ)),
                    truncQ ((1 - t) * (kfA.rgb_color.2.2 : ℚ) + t * (kfB.rgb_color.2.2 : ℚ)))
      brightness_pct := truncQ ((1 - t) * (kfA.brightness_pct : ℚ) + t * (kfB.brightness_pct : ℚ))
      effect := none
      scene := none
      inherit := false
      flicker := none }

/-- The `fire_influence` computation of `ExportGameData` STEP 3
(GameState.cpp lines 218–222), with `std::pow(·, 0.4f)` as the parameter
`shape`. -/
def fireInfluence (shape : ℚ → ℚ) (dynBrightness : ℤ) : ℚ :=
  let fi0 := clampQ ((dynBrightness : ℚ) / 100) 0 1
  let fi1 := shape fi0
  let fi2 := if fi1 < 1 / 20 then 0 else fi1
  if 19 / 20 < fi2 then 1 else fi2

/-- The per-lamp body of `ExportGameData` STEP 3 (GameState.cpp lines
214–241): blend the dynamic and scenario/ambient states with fire
dominance. -/
def compositeLamp (shape : ℚ → ℚ) (dyn scen : LightState) : LightState :=
  let fi := fireInfluence shape dyn.brightness_pct
  let sw := 1 - fi
  let out : LightState :=
    { dyn with
      rgb_color := (clampZ (truncQ (fi * (dyn.rgb_color.1 : ℚ) + sw * (scen.rgb_color.1 : ℚ))) 0 255,
                    clampZ (truncQ (fi * (dyn.rgb_color.2.1 : ℚ) + sw * (scen.rgb_color.2.1 : ℚ))) 0 255,
                    clampZ (truncQ (fi * (dyn.rgb_color.2.2 : ℚ) + sw * (scen.rgb_color.2.2 : ℚ))) 0 255)
      brightness_pct :=
        clampZ (truncQ (fi * (dyn.brightness_pct : ℚ) + sw * (scen.brightness_pct : ℚ))) 10 100 }
  if scen.inherit then dyn else out

/-- The Layer Compositor loop of `ExportGameData` STEP 3 (GameState.cpp
lines 213–242): iterates over the dynamic states by index; an index past
the end of the scenario list falls back to the dynamic state itself. -/
def blendLampStates (shape : ℚ → ℚ) (dynamicLampStates scenarioLampStates : List LightState) :
    List LightState :=
  (List.range dynamicLampStates.length).map fun i =>
    let dyn := dynamicLampStates.getD i default
    let scen := if i < scenarioLampStates.length then scenarioLampStates.getD i default else dyn
    compositeLamp shape dyn scen

/-- The per-tick world snapshot consumed by `ExportGameData` (player hour,
combat flag, interior flag, torch flag, camera-yaw cosine/sine of `-yaw`,
and the relative-position light list built in STEP 1). -/
structure WorldSnapshot where
  gameHour : ℚ
  inCombat : Bool
  torchEquipped : Bool
  isInterior : Bool
  yawCos : ℚ
  yawSin : ℚ
  ingameLights : List InGameLight
deriving Repr

/-- The scenario/ambient layer of `ExportGameData` STEP 2 (GameState.cpp
lines 176–210).  `uninitRgb` / `uninitBright` model the indeterminate
`rgb_color` / `brightness_pct` of the stack-local `LightState s;` in the
interior branch. -/
def scenarioLayer (uninitRgb : ℤ × ℤ × ℤ) (uninitBright : ℤ)
    (scenarios : List Scenario) (kfs : List DayNightKeyframe)
    (lamps : List RealLamp) (snap : WorldSnapshot) : List LightState :=
  match resolveScenario snap.inCombat snap.torchEquipped scenarios with
  | some sc => sc.outcome
  | none =>
      lamps.map fun lamp =>
        if snap.isInterior then
          { entity_id := lamp.entity_id
            rgb_color := uninitRgb
            brightness_pct := uninitBright
            effect := none
            scene := none
            inherit := true
            flicker := none }
        else GetAmbientStateForHour kfs snap.gameHour lamp.entity_id

/-- One full pipeline tick: `ExportGameData` STEPS 1–4 (GameState.cpp lines
155–245), with the world reads replaced by the snapshot and the HTTP sink
dropped.  Returns the smoother memory after the tick and the smoothed
states handed to `ApplyLightStates`. -/
def ExportGameData (sqrtFn : ℚ → ℚ) (shape : ℚ → ℚ)
    (uninitRgbMap : ℤ × ℤ × ℤ) (uninitBrightMap : ℤ)
    (uninitRgbScen : ℤ × ℤ × ℤ) (uninitBrightScen : ℤ)
    (lamps : List RealLamp) (scenarios : List Scenario) (kfs : List DayNightKeyframe)
    (snap : WorldSnapshot) (mem : SmootherMemory) : SmootherMemory × List LightState :=
  let radius : ℚ := 400
  let dynamicLampStates :=
    MapInGameLightsToRealLamps sqrtFn uninitRgbMap uninitBrightMap lamps snap.ingameLights
      snap.yawCos snap.yawSin radius
  let scenarioLampStates := scenarioLayer uninitRgbScen uninitBrightScen scenarios kfs lamps snap
  let finalLampStates := blendLampStates shape dynamicLampStates scenarioLampStates
  LightSmoother.SmoothStates mem finalLampStates (1 / 5)

/-- Trigger evaluation of the `ExportGameData` variant in plugin.cpp
(lines 484–518): recognizes `"always"`, `"player_in_combat"` and
`"game_hour_range"`.  Note that the two branches of the
`game_hour_range` test are textually identical in the source. -/
def pluginTriggerMet (inCombat : Bool) (currentHour : ℤ) (t : ScenarioTrigger) : Bool :=
  if t.type = "always" then true
  else if t.type = "player_in_combat" then inCombat
  else if t.type = "game_hour_range" then
    match t.min_hour, t.max_hour with
    | some minH, some maxH =>
        if minH ≤ maxH then decide (minH ≤ currentHour ∨ currentHour < maxH)
        else decide (minH ≤ currentHour ∨ currentHour < maxH)
    | _, _ => false
  else false

theorem truncQ_intCast (n : ℤ) : truncQ (n : ℚ) = n := by
  rcases le_or_lt 0 (n : ℚ) with h | h
  · simp [truncQ, h]
  · simp [truncQ, not_le.mpr h]

theorem clampZ_of_mem (v lo hi : ℤ) (h1 : lo ≤ v) (h2 : v ≤ hi) : clampZ v lo hi = v := by
  simp [clampZ, not_lt.mpr h1, not_lt.mpr h2]

/-- C7: for any hour input, with fewer than two keyframes
`GetAmbientStateForHour` returns the fixed neutral default
(mid-gray `(128,128,128)`, 50% brightness) instead of failing. -/
theorem ambient_fallback_below_two_keyframes (kfs : List DayNightKeyframe) (gameHour : ℚ)
    (e : String) (h : kfs.length < 2) :
    GetAmbientStateForHour kfs gameHour e = ⟨e, (128, 128, 128), 50, none, none, false, none⟩ := by
  rw [GetAmbientStateForHour, if_pos h]

theorem ambient_fallback_below_two_keyframes_witness :
    ([] : List DayNightKeyframe).length < 2 ∧
      GetAmbientStateForHour [] (37 / 2) "wohnzimmer" =
        ⟨"wohnzimmer", (128, 128, 128), 50, none, none, false, none⟩ :=
  ⟨by decide, ambient_fallback_below_two_keyframes [] (37 / 2) "wohnzimmer" (by decide)⟩

/-- C4 (code bug): a `game_hour_range` trigger with `min_hour = 8 ≤
max_hour = 18` evaluates to `true` at current hour `3`, although `3` does
not lie in `8..18`: the non-wrapping branch of plugin.cpp tests
`hour >= min || hour < max` (identical to the wrapping branch), which is
vacuously true, contradicting its own `Normal range (e.g., 8 to 18)`
comment. -/
theorem gameHourRange_normal_branch_bug :
    pluginTriggerMet false 3 ⟨"game_hour_range", some 8, some 18⟩ = true ∧
      ¬((8 : ℤ) ≤ 3 ∧ (3 : ℤ) ≤ 18) := by
  constructor
  · decide
  · decide

/-- C10: `RotateVectorByYaw` leaves the z component unchanged and, for any
`cosA`, `sinA` on the unit circle (as `cos(-yaw)`, `sin(-yaw)` are),
preserves the squared Euclidean norm, hence also the computed length for
any square-root routine — the Mapper's distance test and normalization see
the same magnitudes before and after the rotation. -/
theorem rotateVectorByYaw_pure_rotation (cosA sinA : ℚ) (v : Vec3)
    (h : cosA * cosA + sinA * sinA = 1) :
    (RotateVectorByYaw cosA sinA v).z = v.z ∧
      Vec3.sqLen (RotateVectorByYaw cosA sinA v) = Vec3.sqLen v ∧
      ∀ sqrtFn : ℚ → ℚ,
        Vec3.lengthF sqrtFn (RotateVectorByYaw cosA sinA v) = Vec3.lengthF sqrtFn v := by
  have hsq : Vec3.sqLen (RotateVectorByYaw cosA sinA v) = Vec3.sqLen v := by
    simp only [RotateVectorByYaw, Vec3.sqLen]
    linear_combination (v.x * v.x + v.y * v.y) * h
  exact ⟨rfl, hsq, fun sqrtFn => by rw [Vec3.lengthF, Vec3.lengthF, hsq]⟩

theorem rotateVectorByYaw_pure_rotation_witness :
    (3 / 5 : ℚ) * (3 / 5) + (4 / 5) * (4 / 5) = 1 ∧
      (RotateVectorByYaw (3 / 5) (4 / 5) ⟨1, 2, 3⟩).z = (⟨1, 2, 3⟩ : Vec3).z ∧
      Vec3.sqLen (RotateVectorByYaw (3 / 5) (4 / 5) ⟨1, 2, 3⟩) = Vec3.sqLen ⟨1, 2, 3⟩ ∧
      ∀ sqrtFn : ℚ → ℚ,
        Vec3.lengthF sqrtFn (RotateVectorByYaw (3 / 5) (4 / 5) ⟨1, 2, 3⟩) =
          Vec3.lengthF sqrtFn ⟨1, 2, 3⟩ :=
  ⟨by norm_num, rotateVectorByYaw_pure_rotation (3 / 5) (4 / 5) ⟨1, 2, 3⟩ (by norm_num)⟩

/-- C2: whenever the dynamic (fire) layer's `brightness_pct` is `100` (and
its channels are in the `[0,255]` range the Mapper guarantees), the
computed `fire_influence` is `1` and the composited output equals the
dynamic state exactly, for every scenario/ambient input.  `shape` is the
modelled `std::pow(·, 0.4f)`, which is `1` at `1`. -/
theorem compositor_full_fire_dominance (shape : ℚ → ℚ) (dyn scen : LightState)
    (hshape : shape 1 = 1) (hb : dyn.brightness_pct = 100)
    (hr0 : 0 ≤ dyn.rgb_color.1) (hr1 : dyn.rgb_color.1 ≤ 255)
    (hg0 : 0 ≤ dyn.rgb_color.2.1) (hg1 : dyn.rgb_color.2.1 ≤ 255)
    (hb0 : 0 ≤ dyn.rgb_color.2.2) (hb1 : dyn.rgb_color.2.2 ≤ 255) :
    fireInfluence shape dyn.brightness_pct = 1 ∧ compositeLamp shape dyn scen = dyn := by
  have hfi : fireInfluence shape dyn.brightness_pct = 1 := by
    have hclamp : clampQ (((100 : ℤ) : ℚ) / 100) 0 1 = 1 := by norm_num [clampQ]
    rw [hb]
    simp only [fireInfluence, hclamp, hshape]
    norm_num
  refine ⟨hfi, ?_⟩
  have channel : ∀ r s : ℤ, 0 ≤ r → r ≤ 255 →
      clampZ (truncQ ((1 : ℚ) * (r : ℚ) + (1 - 1) * (s : ℚ))) 0 255 = r := by
    intro r s h0 h1
    have h : (1 : ℚ) * (r : ℚ) + (1 - 1) * (s : ℚ) = (r : ℚ) := by ring
    rw [h, truncQ_intCast, clampZ_of_mem r 0 255 h0 h1]
  have hbright :
      clampZ (truncQ ((1 : ℚ) * (dyn.brightness_pct : ℚ) + (1 - 1) * (scen.brightness_pct : ℚ)))
        10 100 = dyn.brightness_pct := by
    have h : (1 : ℚ) * (dyn.brightness_pct : ℚ) + (1 - 1) * (scen.brightness_pct : ℚ) =
        (dyn.brightness_pct : ℚ) := by ring
    rw [h, truncQ_intCast, clampZ_of_mem _ 10 100 (by rw [hb]; norm_num) (by rw [hb])]
  simp only [compositeLamp, hfi]
  rw [channel _ _ hr0 hr1, channel _ _ hg0 hg1, channel _ _ hb0 hb1, hbright]
  exact ite_self dyn

theorem compositor_full_fire_dominance_witness :
    (fun x : ℚ => x) 1 = 1 ∧
      fireInfluence (fun x : ℚ => x)
          (⟨"a", (10, 20, 30), 100, some "flicker", none, false, some ⟨60, 40, 20, 20⟩⟩ :
            LightState).brightness_pct = 1 ∧
      compositeLamp (fun x : ℚ => x)
          ⟨"a", (10, 20, 30), 100, some "flicker", none, false, some ⟨60, 40, 20, 20⟩⟩
          ⟨"a", (1, 2, 3), 55, none, none, false, none⟩ =
        ⟨"a", (10, 20, 30), 100, some "flicker", none, false, some ⟨60, 40, 20, 20⟩⟩ := by
  have h := compositor_full_fire_dominance (fun x : ℚ => x)
    ⟨"a", (10, 20, 30), 100, some "flicker", none, false, some ⟨60, 40, 20, 20⟩⟩
    ⟨"a", (1, 2, 3), 55, none, none, false, none⟩
    rfl rfl (by decide) (by decide) (by decide) (by decide) (by decide) (by decide)
  exact ⟨rfl, h.1, h.2⟩

theorem mapAccStep_skip (sqrtFn : ℚ → ℚ) (cosA sinA maxDistance : ℚ) (lampDir : Vec3)
    (acc : MapAcc) (gameLight : InGameLight)
    (h : maxDistance < Vec3.lengthF sqrtFn (RotateVectorByYaw cosA sinA gameLight.skyrim_pos)) :
    mapAccStep sqrtFn cosA sinA maxDistance lampDir acc gameLight = acc := by
  simp only [mapAccStep, if_pos h]

/-- C8: a detected light whose Euclidean distance `d` from the origin
exceeds `maxDistance` contributes zero weight to every lamp: the Mapper's
output on a light list containing it equals its output with that light
removed, wherever it sits in the list.  `hsqrt` pins the modelled
`std::sqrt` to the true distance on the rotated vector. -/
theorem mapper_excludes_far_light (sqrtFn : ℚ → ℚ) (uninitRgb : ℤ × ℤ × ℤ) (uninitBright : ℤ)
    (realLamps : List RealLamp) (lights1 lights2 : List InGameLight) (gl : InGameLight)
    (cosA sinA maxDistance d : ℚ)
    (hd0 : 0 ≤ d) (hdsq : d * d = Vec3.sqLen gl.skyrim_pos) (hfar : maxDistance < d)
    (hsqrt : sqrtFn (Vec3.sqLen (RotateVectorByYaw cosA sinA gl.skyrim_pos)) = d) :
    MapInGameLightsToRealLamps sqrtFn uninitRgb uninitBright realLamps
        (lights1 ++ gl :: lights2) cosA sinA maxDistance =
      MapInGameLightsToRealLamps sqrtFn uninitRgb uninitBright realLamps
        (lights1 ++ lights2) cosA sinA maxDistance := by
  unfold MapInGameLightsToRealLamps
  apply List.map_congr_left
  intro lamp _
  unfold mapLampState
  have hdist : maxDistance <
      Vec3.lengthF sqrtFn (RotateVectorByYaw cosA sinA gl.skyrim_pos) := by
    rw [Vec3.lengthF, hsqrt]; exact hfar
  have hfold : ∀ acc : MapAcc,
      (lights1 ++ gl :: lights2).foldl
          (mapAccStep sqrtFn cosA sinA maxDistance (Vec3.normalizedF sqrtFn lamp.position)) acc =
        (lights1 ++ lights2).foldl
          (mapAccStep sqrtFn cosA sinA maxDistance (Vec3.normalizedF sqrtFn lamp.position)) acc := by
    intro acc
    rw [List.foldl_append, List.foldl_append, List.foldl_cons,
      mapAccStep_skip sqrtFn cosA sinA maxDistance _ _ gl hdist]
  simp only [hfold]

theorem mapper_excludes_far_light_witness :
    (0 : ℚ) ≤ 500 ∧
      (500 : ℚ) * 500 =
        Vec3.sqLen (⟨⟨300, 400, 0⟩, "fire", 255, 140, 0, 1⟩ : InGameLight).skyrim_pos ∧
      (400 : ℚ) < 500 ∧
      (fun _ : ℚ => (500 : ℚ))
          (Vec3.sqLen (RotateVectorByYaw 1 0
            (⟨⟨300, 400, 0⟩, "fire", 255, 140, 0, 1⟩ : InGameLight).skyrim_pos)) = 500 ∧
      MapInGameLightsToRealLamps (fun _ : ℚ => (500 : ℚ)) (0, 0, 0) 0 [⟨"l1", ⟨1, 0, 0⟩⟩]
          ([] ++ ⟨⟨300, 400, 0⟩, "fire", 255, 140, 0, 1⟩ :: []) 1 0 400 =
        MapInGameLightsToRealLamps (fun _ : ℚ => (500 : ℚ)) (0, 0, 0) 0 [⟨"l1", ⟨1, 0, 0⟩⟩]
          ([] ++ []) 1 0 400 :=
  ⟨by norm_num, by norm_num [Vec3.sqLen], by norm_num, rfl,
    mapper_excludes_far_light (fun _ : ℚ => (500 : ℚ)) (0, 0, 0) 0 [⟨"l1", ⟨1, 0, 0⟩⟩] [] []
      ⟨⟨300, 400, 0⟩, "fire", 255, 140, 0, 1⟩ 1 0 400 500 (by norm_num)
      (by norm_num [Vec3.sqLen]) (by norm_num) rfl⟩

theorem resolve_foldl_spec (ic te : Bool) :
    ∀ (scs : List Scenario) (acc : Option Scenario × ℤ),
      (acc.1 = none → acc.2 = -1) →
      (∀ b, acc.1 = some b → acc.2 = b.priority ∧ 0 ≤ b.priority) →
      (scs.foldl (resolveStep ic te) acc).1 =
        (scs.filter fun sc =>
            triggerMetGS ic te sc.trigger && decide (0 ≤ sc.priority)).foldl
          (fun a sc =>
            match a with
            | none => some sc
            | some best => if best.priority < sc.priority then some sc else some best)
          acc.1 := by
  intro scs
  induction scs with
  | nil => intro acc _ _; rfl
  | cons sc rest ih =>
      intro acc hnone hsome
      rw [List.foldl_cons, List.filter_cons]
      by_cases htr : triggerMetGS ic te sc.trigger = true
      · by_cases hp : 0 ≤ sc.priority
        · have hcond : (triggerMetGS ic te sc.trigger && decide (0 ≤ sc.priority)) = true := by
            rw [htr, decide_eq_true hp]; rfl
          rw [if_pos hcond, List.foldl_cons]
          rcases hacc : acc.1 with _ | b
          · have h2 : acc.2 = -1 := hnone hacc
            have hstep : resolveStep ic te acc sc = (some sc, sc.priority) := by
              rw [resolveStep, if_pos ⟨htr, by rw [h2]; omega⟩]
            rw [hstep, ih (some sc, sc.priority) (by intro h; cases h)
              (fun b hb => by cases hb; exact ⟨rfl, hp⟩)]
          · obtain ⟨h2, hbp⟩ := hsome b hacc
            by_cases hgt : b.priority < sc.priority
            · have hstep : resolveStep ic te acc sc = (some sc, sc.priority) := by
                rw [resolveStep, if_pos ⟨htr, by rw [h2]; exact hgt⟩]
              rw [hstep, ih (some sc, sc.priority) (by intro h; cases h)
                (fun c hc => by cases hc; exact ⟨rfl, hp⟩)]
              simp [hgt]
            · have hstep : resolveStep ic te acc sc = acc := by
                rw [resolveStep, if_neg]
                intro hc
                exact hgt (h2 ▸ hc.2)
              rw [hstep, ih acc hnone hsome]
              simp [hgt, hacc]
        · have hcond : (triggerMetGS ic te sc.trigger && decide (0 ≤ sc.priority)) = false := by
            simp [hp]
          rw [if_neg (by simp [hcond])]
          have hstep : resolveStep ic te acc sc = acc := by
            rw [resolveStep, if_neg]
            intro hc
            rcases hacc : acc.1 with _ | b
            · have h2 : acc.2 = -1 := hnone hacc
              rw [h2] at hc
              omega
            · obtain ⟨h2, hbp⟩ := hsome b hacc
              rw [h2] at hc
              omega
          rw [hstep]
          exact ih acc hnone hsome
      · have hcond : (triggerMetGS ic te sc.trigger && decide (0 ≤ sc.priority)) = false := by
          simp [htr]
        rw [if_neg (by simp [hcond])]
        have hstep : resolveStep ic te acc sc = acc := by
          rw [resolveStep, if_neg]
          intro hc
          exact htr hc.1
        rw [hstep]
        exact ih acc hnone hsome

/-- C1 (amended): the Scenario Resolver implements the claimed
earliest-greatest-priority selection only over the scenarios of
nonnegative priority: because `highestPriority` starts at `-1`, a
triggered scenario with negative priority is never selected, and the
resolver returns none exactly when no triggered scenario has priority
`≥ 0`. -/
theorem resolver_is_spec_selection_on_nonneg (ic te : Bool) (scs : List Scenario) :
    resolveScenario ic te scs =
      resolveScenarioSpec ic te (scs.filter fun sc => decide (0 ≤ sc.priority)) := by
  rw [resolveScenario, resolveScenarioSpec, List.filter_filter,
    resolve_foldl_spec ic te scs (none, -1) (fun _ => rfl) (fun b hb => by cases hb)]

/-- C1 (counterexample): a single triggered scenario with priority `-1` is
the triggered scenario of strictly greatest priority, and the spec-worded
selection picks it, yet the resolver selects none — the claim fails for
negative priorities. -/
theorem resolver_drops_negative_priority_counterexample :
    triggerMetGS true false (⟨"neg", -1, ⟨"player_in_combat", none, none⟩, []⟩ :
        Scenario).trigger = true ∧
      resolveScenarioSpec true false [⟨"neg", -1, ⟨"player_in_combat", none, none⟩, []⟩] =
        some ⟨"neg", -1, ⟨"player_in_combat", none, none⟩, []⟩ ∧
      resolveScenario true false [⟨"neg", -1, ⟨"player_in_combat", none, none⟩, []⟩] = none := by
  refine ⟨by decide, by decide, by decide⟩

/-- C3 (counterexample): a lamp already present in the smoother memory
(stored effect `"flicker"`, stored brightness `0`) receives a
non-inherit state with brightness `9` and no effect, with `α = 1/5`.  The
claimed update `round(stored + (incoming - stored) * α)` gives `2` and the
claimed overwrite would clear the effect, but the code stores
`trunc(1.8) = 1` and keeps the old effect `"flicker"`. -/
theorem smoother_round_overwrite_counterexample :
    (([("lamp", ⟨(0, 0, 0), 0, "flicker", false⟩)] : SmootherMemory).lookup "lamp" =
        some ⟨(0, 0, 0), 0, "flicker", false⟩) ∧
      (LightSmoother.SmoothStates [("lamp", ⟨(0, 0, 0), 0, "flicker", false⟩)]
            [⟨"lamp", (9, 9, 9), 9, none, none, false, none⟩] (1 / 5)).1.lookup "lamp" =
        some ⟨(1, 1, 1), 1, "flicker", false⟩ ∧
      round ((0 : ℚ) + ((9 : ℚ) - 0) * (1 / 5)) = 2 ∧
      (1 : ℤ) ≠ 2 ∧
      ("flicker" : String) ≠ "" := by
  refine ⟨by simp [List.lookup], ?_, by norm_num [round_eq], by decide, by decide⟩
  norm_num [LightSmoother.SmoothStates, smoothOne, lerp, truncQ, List.lookup]
  all_goals decide

/-- C3 (amended): for a lamp whose stored memory has a non-empty effect
(the code detects "first sight" by an empty stored effect) and whose
incoming state has `inherit = false`, each stored channel and the stored
brightness become `trunc(stored + (incoming - stored) * α)` (truncation
toward zero, not rounding); `inherit` is overwritten with the incoming
value, while `effect` is overwritten only when the incoming state carries
one, otherwise the stored effect is kept. -/
theorem smoother_smoothing_branch (mem : SmootherMemory) (st : LightState) (α : ℚ)
    (prev : SmoothLampState)
    (hlook : (mem.lookup st.entity_id).getD SmoothLampState.fresh = prev)
    (hprev : prev.effect ≠ "") (hinh : st.inherit = false) :
    LightSmoother.SmoothStates mem [st] α =
      (let stored : SmoothLampState :=
        ⟨(truncQ ((prev.rgb_color.1 : ℚ) + ((st.rgb_color.1 : ℚ) - (prev.rgb_color.1 : ℚ)) * α),
          truncQ ((prev.rgb_color.2.1 : ℚ) + ((st.rgb_color.2.1 : ℚ) - (prev.rgb_color.2.1 : ℚ)) * α),
          truncQ ((prev.rgb_color.2.2 : ℚ) + ((st.rgb_color.2.2 : ℚ) - (prev.rgb_color.2.2 : ℚ)) * α)),
         truncQ ((prev.brightness_pct : ℚ) + ((st.brightness_pct : ℚ) - (prev.brightness_pct : ℚ)) * α),
         st.effect.getD prev.effect, st.inherit⟩
       ((st.entity_id, stored) :: mem,
        [{ st with rgb_color := stored.rgb_color, brightness_pct := stored.brightness_pct }])) := by
  simp only [LightSmoother.SmoothStates, smoothOne, hlook, lerp]
  rw [if_neg]
  intro hor
  rcases hor with h | h
  · exact hprev h
  · rw [hinh] at h
    cases h

theorem smoother_smoothing_branch_witness :
    (([("l", ⟨(10, 10, 10), 50, "x", false⟩)] : SmootherMemory).lookup
          (⟨"l", (20, 20, 20), 60, some "y", none, false, none⟩ : LightState).entity_id).getD
        SmoothLampState.fresh = ⟨(10, 10, 10), 50, "x", false⟩ ∧
      (⟨(10, 10, 10), 50, "x", false⟩ : SmoothLampState).effect ≠ "" ∧
      (⟨"l", (20, 20, 20), 60, some "y", none, false, none⟩ : LightState).inherit = false ∧
      LightSmoother.SmoothStates [("l", ⟨(10, 10, 10), 50, "x", false⟩)]
          [⟨"l", (20, 20, 20), 60, some "y", none, false, none⟩] (1 / 5) =
        (let stored : SmoothLampState :=
          ⟨(truncQ (((10 : ℤ) : ℚ) + (((20 : ℤ) : ℚ) - ((10 : ℤ) : ℚ)) * (1 / 5)),
            truncQ (((10 : ℤ) : ℚ) + (((20 : ℤ) : ℚ) - ((10 : ℤ) : ℚ)) * (1 / 5)),
            truncQ (((10 : ℤ) : ℚ) + (((20 : ℤ) : ℚ) - ((10 : ℤ) : ℚ)) * (1 / 5))),
           truncQ (((50 : ℤ) : ℚ) + (((60 : ℤ) : ℚ) - ((50 : ℤ) : ℚ)) * (1 / 5)),
           (some "y").getD "x", false⟩
         (("l", stored) :: [("l", ⟨(10, 10, 10), 50, "x", false⟩)],
          [{ (⟨"l", (20, 20, 20), 60, some "y", none, false, none⟩ : LightState) with
              rgb_color := stored.rgb_color, brightness_pct := stored.brightness_pct }])) :=
  ⟨by simp [List.lookup], by decide, rfl,
    smoother_smoothing_branch [("l", ⟨(10, 10, 10), 50, "x", false⟩)]
      ⟨"l", (20, 20, 20), 60, some "y", none, false, none⟩ (1 / 5)
      ⟨(10, 10, 10), 50, "x", false⟩ (by simp [List.lookup]) (by decide) rfl⟩

theorem getD_map_of_lt {α β : Type} (f : α → β) (l : List α) (i : ℕ) (h : i < l.length)
    (d : β) (d' : α) : (l.map f).getD i d = f (l.getD i d') := by
  rw [List.getD_eq_getElem?_getD, List.getElem?_map, List.getD_eq_getElem?_getD,
    List.getElem?_eq_getElem h]
  simp

theorem getD_range_map_of_lt {β : Type} (f : ℕ → β) (n i : ℕ) (h : i < n) (d : β) :
    ((List.range n).map f).getD i d = f i := by
  rw [List.getD_eq_getElem?_getD, List.getElem?_map, List.getElem?_range h]
  simp

theorem mapLampState_entity (sqrtFn : ℚ → ℚ) (uninitRgb : ℤ × ℤ × ℤ) (uninitBright : ℤ)
    (gameLights : List InGameLight) (cosA sinA maxDistance : ℚ) (lamp : RealLamp) :
    (mapLampState sqrtFn uninitRgb uninitBright gameLights cosA sinA maxDistance
        lamp).entity_id = lamp.entity_id := by
  simp only [mapLampState]
  split <;> rfl

theorem compositeLamp_entity (shape : ℚ → ℚ) (dyn scen : LightState) :
    (compositeLamp shape dyn scen).entity_id = dyn.entity_id := by
  simp only [compositeLamp]
  split <;> rfl

/-- C9: for every input, the Spatial Light Mapper emits exactly one
`LightState` per configured lamp, in lamp-list order, with matching
`entity_id`s, and the Layer Compositor applied to the Mapper's output (with
any scenario/ambient list) does the same. -/
theorem mapper_compositor_one_state_per_lamp (sqrtFn : ℚ → ℚ) (uninitRgb : ℤ × ℤ × ℤ)
    (uninitBright : ℤ) (lamps : List RealLamp) (gameLights : List InGameLight)
    (cosA sinA maxDistance : ℚ) (shape : ℚ → ℚ) (scenStates : List LightState) :
    (MapInGameLightsToRealLamps sqrtFn uninitRgb uninitBright lamps gameLights cosA sinA
        maxDistance).length = lamps.length ∧
      (∀ i, i < lamps.length →
        ((MapInGameLightsToRealLamps sqrtFn uninitRgb uninitBright lamps gameLights cosA sinA
            maxDistance).getD i default).entity_id = (lamps.getD i default).entity_id) ∧
      (blendLampStates shape
          (MapInGameLightsToRealLamps sqrtFn uninitRgb uninitBright lamps gameLights cosA sinA
            maxDistance) scenStates).length = lamps.length ∧
      (∀ i, i < lamps.length →
        ((blendLampStates shape
            (MapInGameLightsToRealLamps sqrtFn uninitRgb uninitBright lamps gameLights cosA sinA
              maxDistance) scenStates).getD i default).entity_id =
          (lamps.getD i default).entity_id) := by
  have hlen : (MapInGameLightsToRealLamps sqrtFn uninitRgb uninitBright lamps gameLights cosA
      sinA maxDistance).length = lamps.length := by
    rw [MapInGameLightsToRealLamps, List.length_map]
  have hmap : ∀ i, i < lamps.length →
      ((MapInGameLightsToRealLamps sqrtFn uninitRgb uninitBright lamps gameLights cosA sinA
          maxDistance).getD i default).entity_id = (lamps.getD i default).entity_id := by
    intro i hi
    rw [MapInGameLightsToRealLamps, getD_map_of_lt _ lamps i hi default default,
      mapLampState_entity]
  have hblen : (blendLampStates shape
      (MapInGameLightsToRealLamps sqrtFn uninitRgb uninitBright lamps gameLights cosA sinA
        maxDistance) scenStates).length = lamps.length := by
    rw [blendLampStates, List.length_map, List.length_range, hlen]
  refine ⟨hlen, hmap, hblen, ?_⟩
  intro i hi
  rw [blendLampStates, getD_range_map_of_lt _ _ i (by rw [hlen]; exact hi) default,
    compositeLamp_entity]
  exact hmap i hi

theorem mapper_compositor_one_state_per_lamp_witness :
    (MapInGameLightsToRealLamps (fun _ : ℚ => 1) (0, 0, 0) 0
        [⟨"l1", ⟨1, 0, 0⟩⟩, ⟨"l2", ⟨0, 1, 0⟩⟩] [] 1 0 400).length = 2 ∧
      (1 : ℕ) < [(⟨"l1", ⟨1, 0, 0⟩⟩ : RealLamp), ⟨"l2", ⟨0, 1, 0⟩⟩].length ∧
      ((blendLampStates (fun x : ℚ => x)
          (MapInGameLightsToRealLamps (fun _ : ℚ => 1) (0, 0, 0) 0
            [⟨"l1", ⟨1, 0, 0⟩⟩, ⟨"l2", ⟨0, 1, 0⟩⟩] [] 1 0 400) []).getD 1
          default).entity_id = "l2" := by
  have h := mapper_compositor_one_state_per_lamp (fun _ : ℚ => 1) (0, 0, 0) 0
    [⟨"l1", ⟨1, 0, 0⟩⟩, ⟨"l2", ⟨0, 1, 0⟩⟩] [] 1 0 400 (fun x : ℚ => x) []
  exact ⟨h.1, by decide, h.2.2.2 1 (by decide)⟩

theorem getD_mem_of_lt {α : Type} (l : List α) (i : ℕ) (h : i < l.length) (d : α) :
    l.getD i d ∈ l := by
  rw [List.getD_eq_getElem?_getD, List.getElem?_eq_getElem h]
  simp

theorem mapper_no_lights (sqrtFn : ℚ → ℚ) (uninitRgb : ℤ × ℤ × ℤ) (uninitBright : ℤ)
    (lamps : List RealLamp) (cosA sinA maxDistance : ℚ) :
    MapInGameLightsToRealLamps sqrtFn uninitRgb uninitBright lamps [] cosA sinA maxDistance =
      lamps.map fun lamp =>
        ⟨lamp.entity_id, uninitRgb, uninitBright, none, none, true, none⟩ := by
  unfold MapInGameLightsToRealLamps
  apply List.map_congr_left
  intro lamp _
  simp only [mapLampState, List.foldl_nil]
  rw [if_neg (by norm_num)]

theorem compositeLamp_of_inherit (shape : ℚ → ℚ) (dyn scen : LightState)
    (h : scen.inherit = true) : compositeLamp shape dyn scen = dyn := by
  simp only [compositeLamp]
  rw [if_pos h]

theorem smoothStates_length (mem : SmootherMemory) (states : List LightState) (α : ℚ) :
    (LightSmoother.SmoothStates mem states α).2.length = states.length := by
  induction states generalizing mem with
  | nil => rfl
  | cons st rest ih =>
      rw [LightSmoother.SmoothStates]
      simp only [List.length_cons, ih]

theorem smoothStates_preserves_inherit (states : List LightState) :
    ∀ (mem : SmootherMemory) (α : ℚ), (∀ st ∈ states, st.inherit = true) →
      ∀ out ∈ (LightSmoother.SmoothStates mem states α).2, out.inherit = true := by
  induction states with
  | nil => intro mem α _ out hout; cases hout
  | cons st rest ih =>
      intro mem α hall out hout
      rw [LightSmoother.SmoothStates] at hout
      simp only [List.mem_cons] at hout
      rcases hout with rfl | hout
      · exact hall st (List.mem_cons_self st rest)
      · exact ih _ α (fun s hs => hall s (List.mem_cons_of_mem st hs)) out hout

theorem blend_inherit (shape : ℚ → ℚ) (dyn scen : List LightState)
    (hd : ∀ st ∈ dyn, st.inherit = true) (hs : ∀ st ∈ scen, st.inherit = true) :
    ∀ st ∈ blendLampStates shape dyn scen, st.inherit = true := by
  intro st hst
  rw [blendLampStates] at hst
  obtain ⟨i, hi, rfl⟩ := List.mem_map.mp hst
  rw [List.mem_range] at hi
  dsimp only
  by_cases hlt : i < scen.length
  · rw [if_pos hlt, compositeLamp_of_inherit _ _ _ (hs _ (getD_mem_of_lt scen i hlt default))]
    exact hd _ (getD_mem_of_lt dyn i hi default)
  · rw [if_neg hlt, compositeLamp_of_inherit _ _ _ (hd _ (getD_mem_of_lt dyn i hi default))]
    exact hd _ (getD_mem_of_lt dyn i hi default)

/-- C5 (amended): indoors, with no triggered scenario and no detected
lights, every state the tick emits carries `inherit = true` — the
Command Sink (`ApplyLightStates`) skips such states, so the physical lamp
keeps its previously applied state; the Smoother's memory, however, is
snapped to the incoming inherit state rather than left unchanged. -/
theorem pipeline_indoor_tick_emits_inherit (sqrtFn shape : ℚ → ℚ)
    (uninitRgbMap uninitRgbScen : ℤ × ℤ × ℤ) (uninitBrightMap uninitBrightScen : ℤ)
    (lamps : List RealLamp) (scenarios : List Scenario) (kfs : List DayNightKeyframe)
    (snap : WorldSnapshot) (mem : SmootherMemory)
    (hint : snap.isInterior = true) (hlights : snap.ingameLights = [])
    (hres : resolveScenario snap.inCombat snap.torchEquipped scenarios = none) :
    (ExportGameData sqrtFn shape uninitRgbMap uninitBrightMap uninitRgbScen uninitBrightScen
        lamps scenarios kfs snap mem).2.length = lamps.length ∧
      ∀ st ∈ (ExportGameData sqrtFn shape uninitRgbMap uninitBrightMap uninitRgbScen
          uninitBrightScen lamps scenarios kfs snap mem).2, st.inherit = true := by
  have hscen : scenarioLayer uninitRgbScen uninitBrightScen scenarios kfs lamps snap =
      lamps.map fun lamp =>
        ⟨lamp.entity_id, uninitRgbScen, uninitBrightScen, none, none, true, none⟩ := by
    unfold scenarioLayer
    rw [hres]
    apply List.map_congr_left
    intro lamp _
    rw [if_pos hint]
  unfold ExportGameData
  rw [hlights]
  simp only [mapper_no_lights, hscen]
  constructor
  · rw [smoothStates_length, blendLampStates, List.length_map, List.length_range,
      List.length_map]
  · apply smoothStates_preserves_inherit
    apply blend_inherit
    · intro st hst
      obtain ⟨lamp, _, rfl⟩ := List.mem_map.mp hst
      rfl
    · intro st hst
      obtain ⟨lamp, _, rfl⟩ := List.mem_map.mp hst
      rfl

theorem pipeline_indoor_tick_emits_inherit_witness :
    ((ExportGameData (fun q : ℚ => q) (fun q : ℚ => q) (0, 0, 0) 0 (0, 0, 0) 0
        [⟨"lamp1", ⟨100, 0, 0⟩⟩] [] [] ⟨9, false, false, true, 1, 0, []⟩
        [("lamp1", ⟨(200, 100, 50), 80, "flicker", false⟩)]).2.getD 0 default).inherit =
      true := by
  have h := pipeline_indoor_tick_emits_inherit (fun q : ℚ => q) (fun q : ℚ => q)
    (0, 0, 0) (0, 0, 0) 0 0 [⟨"lamp1", ⟨100, 0, 0⟩⟩] [] []
    ⟨9, false, false, true, 1, 0, []⟩ [("lamp1", ⟨(200, 100, 50), 80, "flicker", false⟩)]
    rfl rfl rfl
  exact h.2 _ (getD_mem_of_lt _ 0 (by rw [h.1]; decide) default)

/-- C5 (counterexample): indoors, no triggered scenario, no detected
lights, one lamp whose smoother memory holds
`{(200,100,50), 80, "flicker", false}`.  After one tick the memory entry
reads `{(0,0,0), 0, "", true}` — the tick snapped the memory to the
incoming inherit state instead of leaving it (and the emitted smoothed
state) unchanged. -/
theorem pipeline_indoor_tick_counterexample :
    (([("lamp1", ⟨(200, 100, 50), 80, "flicker", false⟩)] : SmootherMemory).lookup "lamp1" =
        some ⟨(200, 100, 50), 80, "flicker", false⟩) ∧
      (ExportGameData (fun q : ℚ => q) (fun q : ℚ => q) (0, 0, 0) 0 (0, 0, 0) 0
          [⟨"lamp1", ⟨100, 0, 0⟩⟩] [] [] ⟨9, false, false, true, 1, 0, []⟩
          [("lamp1", ⟨(200, 100, 50), 80, "flicker", false⟩)]).1.lookup "lamp1" =
        some ⟨(0, 0, 0), 0, "", true⟩ ∧
      (ExportGameData (fun q : ℚ => q) (fun q : ℚ => q) (0, 0, 0) 0 (0, 0, 0) 0
          [⟨"lamp1", ⟨100, 0, 0⟩⟩] [] [] ⟨9, false, false, true, 1, 0, []⟩
          [("lamp1", ⟨(200, 100, 50), 80, "flicker", false⟩)]).2 =
        [⟨"lamp1", (0, 0, 0), 0, none, none, true, none⟩] ∧
      (⟨(0, 0, 0), 0, "", true⟩ : SmoothLampState) ≠ ⟨(200, 100, 50), 80, "flicker", false⟩ := by
  refine ⟨by simp [List.lookup], ?_, ?_, by decide⟩ <;>
    norm_num [ExportGameData, MapInGameLightsToRealLamps, mapLampState, scenarioLayer,
      resolveScenario, blendLampStates, compositeLamp, fireInfluence, clampQ, clampZ,
      truncQ, LightSmoother.SmoothStates, smoothOne, lerp, List.lookup, List.range_succ]

theorem getD_eq_get {α : Type} (l : List α) (i : ℕ) (h : i < l.length) (d : α) :
    l.getD i d = l.get ⟨i, h⟩ := by
  rw [List.getD_eq_getElem?_getD, List.getElem?_eq_getElem h]
  simp

theorem fmodQ_small (q : ℚ) (h0 : 0 ≤ q) (h24 : q < 24) : fmodQ q 24 = q := by
  have hdiv0 : (0 : ℚ) ≤ q / 24 := by positivity
  have hdiv1 : q / 24 < 1 := by
    rw [div_lt_one (by norm_num : (0:ℚ) < 24)]
    exact h24
  have hfl : ⌊q / 24⌋ = 0 := Int.floor_eq_zero_iff.mpr ⟨hdiv0, hdiv1⟩
  rw [fmodQ, truncQ, if_pos hdiv0, hfl]
  norm_num

theorem segSearch_finds (kfs : List DayNightKeyframe) (hour : ℚ) (i : ℕ) (hi : i < kfs.length)
    (hseg : inSegmentB hour ((kfs.getD i default).hour : ℚ)
      ((kfs.getD ((i + 1) % kfs.length) default).hour : ℚ) = true) :
    ∀ k s : ℕ, i - s = k → s ≤ i →
      (∀ j, s ≤ j → j < i →
        inSegmentB hour ((kfs.getD j default).hour : ℚ)
          ((kfs.getD ((j + 1) % kfs.length) default).hour : ℚ) = false) →
      segSearch kfs hour s = some i := by
  intro k
  induction k with
  | zero =>
      intro s hk hs _
      have hsi : s = i := by omega
      subst hsi
      rw [segSearch, dif_pos hi, if_pos hseg]
  | succ k ih =>
      intro s hk hs hnot
      have hsi : s < i := by omega
      have hslen : s < kfs.length := by omega
      have hfalse := hnot s le_rfl hsi
      rw [segSearch, dif_pos hslen, if_neg (by rw [hfalse]; exact Bool.false_ne_true)]
      exact ih (s + 1) (by omega) (by omega) (fun j hj1 hj2 => hnot j (by omega) hj2)

/-- C6: with at least two keyframes, sorted strictly by hour with hours in
`[0,24)`, evaluating the Ambient Interpolator exactly at `keyframe[i].hour`
returns exactly `keyframe[i]`'s color and brightness. -/
theorem ambient_exact_at_keyframe (kfs : List DayNightKeyframe) (i : ℕ) (e : String)
    (hlen : 2 ≤ kfs.length) (hi : i < kfs.length)
    (hsort : kfs.Pairwise (fun a b => a.hour < b.hour))
    (hbnd : ∀ kf ∈ kfs, 0 ≤ kf.hour ∧ kf.hour < 24) :
    GetAmbientStateForHour kfs (((kfs.getD i default).hour : ℚ)) e =
      ⟨e, (kfs.getD i default).rgb_color, (kfs.getD i default).brightness_pct,
        none, none, false, none⟩ := by
  have hget : ∀ (a b : ℕ) (ha : a < kfs.length) (hb : b < kfs.length), a < b →
      (kfs.get ⟨a, ha⟩).hour < (kfs.get ⟨b, hb⟩).hour :=
    fun a b ha hb hab => List.pairwise_iff_get.mp hsort ⟨a, ha⟩ ⟨b, hb⟩ hab
  have hgetD : ∀ (a b : ℕ), a < kfs.length → b < kfs.length → a < b →
      (kfs.getD a default).hour < (kfs.getD b default).hour := by
    intro a b ha hb hab
    rw [getD_eq_get kfs a ha default, getD_eq_get kfs b hb default]
    exact hget a b ha hb hab
  have hbq : 0 ≤ (kfs.getD i default).hour ∧ (kfs.getD i default).hour < 24 :=
    hbnd _ (getD_mem_of_lt kfs i hi default)
  have h0 : (0 : ℚ) ≤ ((kfs.getD i default).hour : ℚ) := by exact_mod_cast hbq.1
  have h24 : ((kfs.getD i default).hour : ℚ) < 24 := by exact_mod_cast hbq.2
  have hfmod : fmodQ ((kfs.getD i default).hour : ℚ) 24 = ((kfs.getD i default).hour : ℚ) :=
    fmodQ_small _ h0 h24
  have hnot : ∀ j, 0 ≤ j → j < i →
      inSegmentB ((kfs.getD i default).hour : ℚ) ((kfs.getD j default).hour : ℚ)
        ((kfs.getD ((j + 1) % kfs.length) default).hour : ℚ) = false := by
    intro j _ hj
    have hj1 : j + 1 < kfs.length := by omega
    have hmodj : (j + 1) % kfs.length = j + 1 := Nat.mod_eq_of_lt hj1
    rw [hmodj]
    have hABj : (kfs.getD j default).hour < (kfs.getD (j + 1) default).hour :=
      hgetD j (j + 1) (by omega) hj1 (by omega)
    have hBi : (kfs.getD (j + 1) default).hour ≤ (kfs.getD i default).hour := by
      rcases eq_or_lt_of_le (by omega : j + 1 ≤ i) with heq | hlt
      · rw [heq]
      · exact le_of_lt (hgetD (j + 1) i hj1 hi hlt)
    rw [inSegmentB, if_pos (by exact_mod_cast hABj)]
    refine decide_eq_false ?_
    intro hand
    exact absurd hand.2 (not_lt.mpr (by exact_mod_cast hBi))
  rcases lt_or_eq_of_le (by omega : i + 1 ≤ kfs.length) with hin | hin
  · -- interior segment: the next keyframe follows in the list
    have hmod : (i + 1) % kfs.length = i + 1 := Nat.mod_eq_of_lt hin
    have hAB : (kfs.getD i default).hour < (kfs.getD (i + 1) default).hour :=
      hgetD i (i + 1) hi hin (by omega)
    have hABq : ((kfs.getD i default).hour : ℚ) < ((kfs.getD (i + 1) default).hour : ℚ) := by
      exact_mod_cast hAB
    have hseg : inSegmentB ((kfs.getD i default).hour : ℚ) ((kfs.getD i default).hour : ℚ)
        ((kfs.getD ((i + 1) % kfs.length) default).hour : ℚ) = true := by
      rw [hmod, inSegmentB, if_pos hABq]
      exact decide_eq_true ⟨le_rfl, hABq⟩
    have hsearch := segSearch_finds kfs ((kfs.getD i default).hour : ℚ) i hi hseg i 0 rfl
      (Nat.zero_le i) (fun j hj1 hj2 => hnot j hj1 hj2)
    rw [GetAmbientStateForHour, if_neg (by omega)]
    simp only [hfmod, if_neg (not_lt.mpr h0), hsearch, hmod]
    rw [if_neg (by exact ne_of_lt hABq), if_pos hABq]
    simp only [sub_self, zero_div]
    norm_num [truncQ_intCast]
  · -- last segment: wraps to keyframe 0
    have hmod : (i + 1) % kfs.length = 0 := by rw [hin, Nat.mod_self]
    have hB0 : (kfs.getD 0 default).hour < (kfs.getD i default).hour :=
      hgetD 0 i (by omega) hi (by omega)
    have hB0q : ((kfs.getD 0 default).hour : ℚ) < ((kfs.getD i default).hour : ℚ) := by
      exact_mod_cast hB0
    have hseg : inSegmentB ((kfs.getD i default).hour : ℚ) ((kfs.getD i default).hour : ℚ)
        ((kfs.getD ((i + 1) % kfs.length) default).hour : ℚ) = true := by
      rw [hmod, inSegmentB, if_neg (not_lt.mpr (le_of_lt hB0q))]
      exact decide_eq_true (Or.inl le_rfl)
    have hsearch := segSearch_finds kfs ((kfs.getD i default).hour : ℚ) i hi hseg i 0 rfl
      (Nat.zero_le i) (fun j hj1 hj2 => hnot j hj1 hj2)
    rw [GetAmbientStateForHour, if_neg (by omega)]
    simp only [hfmod, if_neg (not_lt.mpr h0), hsearch, hmod]
    rw [if_neg (by exact ne_of_gt hB0q), if_neg (not_lt.mpr (le_of_lt hB0q)), if_pos le_rfl]
    simp only [sub_self, zero_div]
    norm_num [truncQ_intCast]

theorem ambient_exact_at_keyframe_witness :
    2 ≤ ([⟨6, (10, 20, 30), 40⟩, ⟨18, (50, 60, 70), 80⟩] :
        List DayNightKeyframe).length ∧
      (1 : ℕ) < ([⟨6, (10, 20, 30), 40⟩, ⟨18, (50, 60, 70), 80⟩] :
        List DayNightKeyframe).length ∧
      ([⟨6, (10, 20, 30), 40⟩, ⟨18, (50, 60, 70), 80⟩] :
        List DayNightKeyframe).Pairwise (fun a b => a.hour < b.hour) ∧
      GetAmbientStateForHour [⟨6, (10, 20, 30), 40⟩, ⟨18, (50, 60, 70), 80⟩]
          (((18 : ℤ) : ℚ)) "x" =
        ⟨"x", (50, 60, 70), 80, none, none, false, none⟩ :=
  ⟨by decide, by decide, by decide,
    ambient_exact_at_keyframe [⟨6, (10, 20, 30), 40⟩, ⟨18, (50, 60, 70), 80⟩] 1 "x"
      (by decide) (by decide) (by decide) (by decide)⟩
